import Mathlib

/-!
Verification of the `ImageServer` component (src/image_server.py) of
athenian-robotics/common-robotics.

The Python class is embedded shallowly:

* mutable instance fields become the record `ImState`, threaded explicitly;
* the external encoder `opencv_utils.encode_image` is an opaque parameter
  `enc : Frame → Bool × List Nat` (the pair mirrors the `(retval, buf)`
  return value; `buf.tobytes()` is the second component);
* Python `bytes` values are `List Nat`;
* the HTML template file read is an `Option String` (`none` = the `open`/
  `read` call raised an `OSError`);
* exceptions that escape a modelled function are explicit constructors or
  `Option`-valued second components;
* Python floats carried as opaque numeric payloads (the refresh delay) are
  represented by `ℚ`; no float arithmetic occurs in the modelled code paths;
* `str.split(":")` is modelled over `List Char` by `pySplit`.
-/

/-- One raw camera frame: its pixel dimensions (`image.shape[:2]` is
`(height, width)`) plus an opaque payload standing for the pixel data. -/
structure Frame where
  height : Nat
  width : Nat
  data : List Nat
deriving DecidableEq, Repr

/-- Construction-time configuration of `ImageServer.__init__`. -/
structure Config where
  camera_name : String
  http_host : List Char
  http_delay_secs : ℚ
  http_file : String
deriving DecidableEq

/-- The mutable instance state of an `ImageServer` object.
`baked` records the `(width, height)` pair captured by the closures that
`_launch_flask` installs as route handlers (absent until launch);
`threads_started` counts the `Thread(...).start()` calls made by
`_launch_flask`. -/
structure ImState where
  current_image : Option Frame
  ready_to_stop : Bool
  flask_launched : Bool
  started : Bool
  stopped : Bool
  baked : Option (Nat × Nat)
  threads_started : Nat
deriving DecidableEq, Repr

/-- Field values set by `ImageServer.__init__`. -/
def initState : ImState :=
  { current_image := none
    ready_to_stop := false
    flask_launched := false
    started := false
    stopped := false
    baked := none
    threads_started := 0 }

/-- The `enabled` property: `len(self.__http_host) > 0`. -/
def enabled (cfg : Config) : Bool :=
  cfg.http_host.length > 0

/-- The `image` getter (the spec's `snapshot()`): under the lock, `[]` if no
frame was ever stored, otherwise `utils.encode_image(frame)` is invoked and
the bytes of its buffer are returned.  `enc` is the opaque external encoder;
the getter ignores its `retval` component, exactly as the source does. -/
def snapshot (enc : Frame → Bool × List Nat) (s : ImState) : List Nat :=
  match s.current_image with
  | none => []
  | some f => (enc f).2

/-- Body of `_launch_flask(width, height)` as it affects instance state: one
listener thread is started, the launch flag is set, and `width`/`height` are
baked into the route-handler closures. -/
def launch_flask (width height : Nat) (s : ImState) : ImState :=
  { s with
    flask_launched := true
    baked := some (width, height)
    threads_started := s.threads_started + 1 }

/-- The `image` setter (the spec's `publish(frame)`): no-op when disabled,
no-op (after logging) when `start()` was not called; otherwise launches
Flask on the first call (reading `height, width = image.shape[:2]`) and
stores the frame under the lock. -/
def publish (cfg : Config) (s : ImState) (f : Frame) : ImState :=
  if !enabled cfg then s
  else if !s.started then s
  else
    let s' := if !s.flask_launched then launch_flask f.width f.height s else s
    { s' with current_image := some f }

/-- `ImageServer.start()`: a no-op if Flask already launched or the server is
disabled, an error-logging no-op if already started, else sets `started`. -/
def start (cfg : Config) (s : ImState) : ImState :=
  if s.flask_launched || !enabled cfg then s
  else if s.started then s
  else { s with started := true }

/-- Outcome of the `requests.post` call made by `stop()`: either the listener
answered, or the connection failed (`requests` raises `ConnectionError`). -/
inductive PostOutcome where
  | ok
  | connError
deriving DecidableEq, Repr

/-- `ImageServer.stop()`: sets the ready-to-stop flag, then POSTs to the
server's own `/__shutdown__` path.  The second component is the exception
that propagates to the caller (`none` = returned normally): the source wraps
the `requests.post` call in no handler, so a connection failure escapes. -/
def stop (post : PostOutcome) (s : ImState) : ImState × Option String :=
  let s' := { s with ready_to_stop := true }
  match post with
  | .ok => (s', none)
  | .connError => (s', some "ConnectionError")

/-- Result of one invocation of the `/__shutdown__` route handler:
the instance state after the call, the response body returned to the
client, and whether the werkzeug shutdown hook was invoked. -/
structure ShutdownResult where
  state : ImState
  response : String
  hook_called : Bool
deriving DecidableEq, Repr

/-- The `/__shutdown__` handler.  `hook_present` says whether
`request.environ.get('werkzeug.server.shutdown')` returned a callable
(`shutdown_func is not None`). -/
def shutdown (hook_present : Bool) (s : ImState) : ShutdownResult :=
  if !s.ready_to_stop then ⟨s, "Not ready to stop", false⟩
  else if hook_present then
    ⟨{ s with stopped := true }, "Shutting down...", true⟩
  else ⟨s, "Shutting down...", false⟩

/-- External calls that mutate the instance state, for reasoning about
operation sequences.  `stopArm` is a `stop()` call with the given POST
outcome; `shutdownReq` is an inbound POST to `/__shutdown__`. -/
inductive Op where
  | start
  | publish (f : Frame)
  | stopArm (post : PostOutcome)
  | shutdownReq (hook : Bool)
deriving DecidableEq

/-- Whether an operation is a `publish` call. -/
def Op.isPublish : Op → Bool
  | .publish _ => true
  | _ => false

/-- State transition of a single external operation. -/
def exec (cfg : Config) (s : ImState) : Op → ImState
  | .start => start cfg s
  | .publish f => publish cfg s f
  | .stopArm post => (stop post s).1
  | .shutdownReq hook => (shutdown hook s).state

/-- Numeric value of a list of decimal digit characters. -/
def digitsVal (cs : List Char) : Nat :=
  cs.foldl (fun n c => 10 * n + (c.toNat - '0'.toNat)) 0

/-- Surrounding-whitespace strip, as Python `float` applies to its input. -/
def pyStrip (cs : List Char) : List Char :=
  ((cs.dropWhile Char.isWhitespace).reverse.dropWhile Char.isWhitespace).reverse

/-- Model of Python `float(s)` on plain decimal literals: surrounding
whitespace stripped, optional sign, then digits with at most one decimal
point and at least one digit.  `none` means `float` raises `ValueError`.
(The full Python grammar also accepts exponents, `inf`/`nan` and digit-group
underscores; those inputs are outside this model.) -/
def pyFloat (s : String) : Option ℚ :=
  let cs := pyStrip s.toList
  let signed : Int × List Char :=
    match cs with
    | '+' :: r => (1, r)
    | '-' :: r => (-1, r)
    | _ => (1, cs)
  let intPart := signed.2.takeWhile Char.isDigit
  let rest := signed.2.dropWhile Char.isDigit
  match rest with
  | [] =>
      if intPart = [] then none
      else some (mkRat (signed.1 * digitsVal intPart) 1)
  | '.' :: fr =>
      if fr.all Char.isDigit ∧ (intPart ≠ [] ∨ fr ≠ []) then
        some (mkRat
          (signed.1 * (digitsVal intPart * 10 ^ fr.length + digitsVal fr))
          (10 ^ fr.length))
      else none
  | _ => none

/-- The fixed raw-image path `_image_fname`. -/
def image_fname : String := "/image.jpg"

/-- The viewer page produced by `get_page`'s `html.replace` chain, abstracted
to the template text together with the values substituted for each
placeholder (`_TITLE_`, `_DELAY_SECS_`, `_NAME_`, `_WIDTH_`, `_HEIGHT_`,
`_IMAGE_FNAME_`). -/
structure RenderedPage where
  template : String
  title : String
  delay_secs : ℚ
  name : String
  width : Nat
  height : Nat
  image_fname : String
deriving DecidableEq

/-- The substitution performed on a successfully read template. -/
def render (cfg : Config) (width height : Nat) (html : String)
    (delay_secs : ℚ) : RenderedPage :=
  { template := html
    title := cfg.camera_name ++ " camera"
    delay_secs := delay_secs
    name := cfg.camera_name
    width := width
    height := height
    image_fname := image_fname }

/-- Outcome of one `get_page` call.  `raised` = an exception escaped the
function (Flask then produces a 500 error response); `failure logged slept`
= the `except` block ran (error logged, `time.sleep` for the given seconds)
and the handler returned `None`, which Flask maps to an error response. -/
inductive PageOutcome where
  | raised
  | failure (logged : Bool) (slept_secs : Nat)
  | page (p : RenderedPage)
deriving DecidableEq

/-- The nested `get_page(delay)` helper of `_launch_flask`.  `width`/`height`
are the closure-captured dimensions; `tmpl` is the content of
`self.__http_file` (`none` = the read raises).  Note `float(delay)` is
evaluated before the `try` block, so its `ValueError` escapes. -/
def get_page (cfg : Config) (width height : Nat) (tmpl : Option String)
    (delay : Option String) : PageOutcome :=
  let body : ℚ → PageOutcome := fun delay_secs =>
    match tmpl with
    | some html => .page (render cfg width height html delay_secs)
    | none => .failure true 1
  let truthy : Bool :=
    match delay with
    | none => false
    | some d => !(d = "")
  if truthy then
    match pyFloat ((delay.getD "")) with
    | none => .raised
    | some v => body v
  else body cfg.http_delay_secs

/-- The delay value shown on a rendered viewer page, if one was rendered. -/
def pageDelay : PageOutcome → Option ℚ
  | .page p => some p.delay_secs
  | _ => none

/-- The `GET /image` route handler (`image_option`): query parameter
`delay`, absent when not supplied. -/
def image_option (cfg : Config) (width height : Nat) (tmpl : Option String)
    (q : Option String) : PageOutcome :=
  get_page cfg width height tmpl q

/-- The `GET /image/<string:delay>` route handler (`image_path`). -/
def image_path (cfg : Config) (width height : Nat) (tmpl : Option String)
    (delay : String) : PageOutcome :=
  get_page cfg width height tmpl (some delay)

/-- Outcome of one blocking `flask_server.run(...)` call: clean return or an
exception reaching the `except` clause. -/
inductive RunOutcome where
  | returned
  | raised
deriving DecidableEq, Repr

/-- Observable actions of the `run_http` serve loop. -/
inductive LoopEvent where
  | runListener
  | logError
  | sleepSecs (n : Nat)
  | logShutdown
deriving DecidableEq, Repr

/-- The `run_http` serve loop over a finite trace.  Each trace element is
`(stoppedAtCheck, outcome)`: the value of `self.stopped` read at the
`while not self.stopped` check, then (if the check passes) the outcome of
`flask_server.run`.  Result: the events performed in order, and `true` iff
the loop exited because the stopped flag was observed (a trace that runs
out leaves the loop still running, result `false`). -/
def run_http : List (Bool × RunOutcome) → List LoopEvent × Bool
  | [] => ([], false)
  | (stopFlag, out) :: rest =>
    if stopFlag then ([], true)
    else
      let evts : List LoopEvent :=
        match out with
        | .returned => [.runListener, .logShutdown]
        | .raised => [.runListener, .logError, .sleepSecs 1, .logShutdown]
      (evts ++ (run_http rest).1, (run_http rest).2)

/-- Model of Python `s.split(sep)` (no maxsplit) over character lists:
splits at every separator occurrence, keeping empty pieces, and returns
`[[]]`-style singleton `[s]` when the separator does not occur; `""` splits
to `[""]`. -/
def pySplit (sep : Char) : List Char → List (List Char)
  | [] => [[]]
  | c :: rest =>
    if c = sep then [] :: pySplit sep rest
    else (c :: (pySplit sep rest).headD []) :: (pySplit sep rest).tail

/-- The host/port parsing of `__init__`:
`vals = http_host.split(":")`; `host = vals[0]`;
`port = vals[1] if len(vals) == 2 else HTTP_PORT_DEFAULT`. -/
def parse_host_port (http_host default_port : List Char) :
    List Char × List Char :=
  let vals := pySplit ':' http_host
  (vals.headD [],
   if vals.length = 2 then vals.tail.headD [] else default_port)

lemma exec_current_image (cfg : Config) (s : ImState) (op : Op)
    (h : op.isPublish = false) :
    (exec cfg s op).current_image = s.current_image := by
  cases op with
  | start =>
      simp only [exec, start]
      split <;> [rfl; split <;> rfl]
  | publish f => simp [Op.isPublish] at h
  | stopArm post => cases post <;> rfl
  | shutdownReq hook =>
      simp only [exec, shutdown]
      split <;> [rfl; split <;> rfl]

lemma foldl_exec_current_image (cfg : Config) (ops : List Op)
    (h : ∀ op ∈ ops, op.isPublish = false) (s : ImState) :
    (ops.foldl (exec cfg) s).current_image = s.current_image := by
  induction ops generalizing s with
  | nil => rfl
  | cons op rest ih =>
      simp only [List.foldl_cons]
      rw [ih (fun o ho => h o (List.mem_cons_of_mem _ ho)),
        exec_current_image cfg s op (h op (List.mem_cons_self _ _))]

lemma publish_current_image (cfg : Config) (s : ImState) (f : Frame)
    (hen : enabled cfg = true) (hst : s.started = true) :
    (publish cfg s f).current_image = some f := by
  simp [publish, hen, hst]

lemma publish_preserves_launched (cfg : Config) (s : ImState) (f : Frame)
    (h : s.flask_launched = true) :
    (publish cfg s f).flask_launched = true ∧
      (publish cfg s f).baked = s.baked ∧
      (publish cfg s f).threads_started = s.threads_started := by
  unfold publish
  split
  · exact ⟨h, rfl, rfl⟩
  · split
    · exact ⟨h, rfl, rfl⟩
    · simp [h]

lemma foldl_publish_preserves_launched (cfg : Config) (fs : List Frame) :
    ∀ s : ImState, s.flask_launched = true →
      (fs.foldl (publish cfg) s).flask_launched = true ∧
        (fs.foldl (publish cfg) s).baked = s.baked ∧
        (fs.foldl (publish cfg) s).threads_started = s.threads_started := by
  induction fs with
  | nil => exact fun s h => ⟨h, rfl, rfl⟩
  | cons f rest ih =>
      intro s h
      obtain ⟨h1, h2, h3⟩ := publish_preserves_launched cfg s f h
      obtain ⟨g1, g2, g3⟩ := ih (publish cfg s f) h1
      exact ⟨g1, by rw [List.foldl_cons]; rw [g2, h2],
        by rw [List.foldl_cons]; rw [g3, h3]⟩

/-- Sample configuration: enabled (non-empty host), default delay 1s. -/
def cfgW : Config := ⟨"cam", "localhost:8080".toList, 1, "page.html"⟩

/-- Sample encoder: succeeds and returns the frame's payload. -/
def encW : Frame → Bool × List Nat := fun f => (true, f.data)

/-- Sample frames. -/
def frameW : Frame := ⟨50, 100, [1, 2, 3]⟩

def frameW2 : Frame := ⟨60, 200, [4, 5]⟩

/-- State right after `start()` succeeded. -/
def sStarted : ImState := { initState with started := true }

/-- State in which `stop()` has armed the shutdown handshake. -/
def sArmed : ImState := { initState with ready_to_stop := true }

/-- C1: a frame published while the server is enabled and started is what a
later `snapshot()` returns, as the external encoder's output for that stored
frame, re-encoded on the call (the getter invokes the encoder itself; the
non-publish operations `ops` between the publish and the snapshot do not
change the stored frame). -/
theorem C1_snapshot_returns_encoding (cfg : Config) (s : ImState) (f : Frame)
    (enc : Frame → Bool × List Nat) (ops : List Op)
    (hen : enabled cfg = true) (hst : s.started = true)
    (hops : ∀ op ∈ ops, op.isPublish = false) :
    snapshot enc (ops.foldl (exec cfg) (publish cfg s f)) = (enc f).2 := by
  unfold snapshot
  rw [foldl_exec_current_image cfg ops hops,
    publish_current_image cfg s f hen hst]

theorem C1_witness :
    enabled cfgW = true ∧ sStarted.started = true ∧
      snapshot encW
        (List.foldl (exec cfgW) (publish cfgW sStarted frameW)
          [Op.stopArm PostOutcome.ok]) = (encW frameW).2 :=
  ⟨by decide, rfl,
    C1_snapshot_returns_encoding cfgW sStarted frameW encW
      [Op.stopArm PostOutcome.ok] (by decide) rfl (by decide)⟩

/-- C2: starting from the freshly constructed state, any sequence of
operations containing no `publish` leaves `snapshot()` returning the empty
byte sequence. -/
theorem C2_snapshot_empty_when_never_published (cfg : Config)
    (enc : Frame → Bool × List Nat) (ops : List Op)
    (hops : ∀ op ∈ ops, op.isPublish = false) :
    snapshot enc (ops.foldl (exec cfg) initState) = [] := by
  unfold snapshot
  rw [foldl_exec_current_image cfg ops hops]
  rfl

theorem C2_witness :
    snapshot encW
      (List.foldl (exec cfgW) initState
        [Op.start, Op.stopArm PostOutcome.ok, Op.shutdownReq false]) = [] :=
  C2_snapshot_empty_when_never_published cfgW encW
    [Op.start, Op.stopArm PostOutcome.ok, Op.shutdownReq false] (by decide)

/-- C4: `publish` is a no-op when the server is disabled (empty host) or
`start()` has not been called: the whole state (in particular the stored
frame and the launch flag) is unchanged, and if no frame was stored,
`snapshot()` still returns the empty result. -/
theorem C4_publish_noop (cfg : Config) (s : ImState) (f : Frame)
    (enc : Frame → Bool × List Nat)
    (h : enabled cfg = false ∨ s.started = false) :
    publish cfg s f = s ∧
      (publish cfg s f).flask_launched = s.flask_launched ∧
      (s.current_image = none → snapshot enc (publish cfg s f) = []) := by
  have hp : publish cfg s f = s := by
    unfold publish
    rcases h with h | h <;> simp [h]
  exact ⟨hp, by rw [hp], fun hc => by rw [hp]; unfold snapshot; rw [hc]⟩

theorem C4_witness :
    publish cfgW initState frameW = initState ∧
      snapshot encW (publish cfgW initState frameW) = [] :=
  ⟨(C4_publish_noop cfgW initState frameW encW (Or.inr rfl)).1,
    (C4_publish_noop cfgW initState frameW encW (Or.inr rfl)).2.2 rfl⟩

/-- C5: in an enabled, started, not-yet-launched state, the first `publish`
launches the listener exactly once (one thread started, launch flag set) and
bakes the first frame's width/height into the page closures; any sequence of
later publishes starts no further thread and leaves the baked dimensions
those of the first frame. -/
theorem C5_bootstrap_at_most_once (cfg : Config) (s : ImState) (f : Frame)
    (fs : List Frame) (hen : enabled cfg = true) (hst : s.started = true)
    (hl : s.flask_launched = false) :
    (publish cfg s f).flask_launched = true ∧
      (publish cfg s f).baked = some (f.width, f.height) ∧
      (publish cfg s f).threads_started = s.threads_started + 1 ∧
      (fs.foldl (publish cfg) (publish cfg s f)).flask_launched = true ∧
      (fs.foldl (publish cfg) (publish cfg s f)).baked
        = some (f.width, f.height) ∧
      (fs.foldl (publish cfg) (publish cfg s f)).threads_started
        = s.threads_started + 1 := by
  have h1 : publish cfg s f
      = { launch_flask f.width f.height s with current_image := some f } := by
    simp [publish, hen, hst, hl]
  obtain ⟨g1, g2, g3⟩ :=
    foldl_publish_preserves_launched cfg fs (publish cfg s f) (by rw [h1]; rfl)
  refine ⟨by rw [h1]; rfl, by rw [h1]; rfl, by rw [h1]; rfl, g1, ?_, ?_⟩
  · rw [g2, h1]; rfl
  · rw [g3, h1]; rfl

theorem C5_witness :
    (publish cfgW sStarted frameW).threads_started = 1 ∧
      (List.foldl (publish cfgW) (publish cfgW sStarted frameW)
        [frameW2, frameW2]).threads_started = 1 ∧
      (List.foldl (publish cfgW) (publish cfgW sStarted frameW)
        [frameW2, frameW2]).baked = some (frameW.width, frameW.height) :=
  ⟨(C5_bootstrap_at_most_once cfgW sStarted frameW [frameW2, frameW2]
      (by decide) rfl rfl).2.2.1,
    (C5_bootstrap_at_most_once cfgW sStarted frameW [frameW2, frameW2]
      (by decide) rfl rfl).2.2.2.2.2,
    (C5_bootstrap_at_most_once cfgW sStarted frameW [frameW2, frameW2]
      (by decide) rfl rfl).2.2.2.2.1⟩

/-- C3 counterexample: with the template readable and the delay parameter
present but not parseable as a number ("abc"), the handler does not render
the page with the configured default delay: `float(delay)` is evaluated
before the `try` block and its `ValueError` escapes `get_page`. -/
theorem C3_counterexample :
    pageDelay (get_page cfgW 100 50 (some "TPL") (some "abc"))
        ≠ some cfgW.http_delay_secs ∧
      get_page cfgW 100 50 (some "TPL") (some "abc")
        = PageOutcome.raised := by
  decide

/-- C3 (amended): for a viewer-page request with a readable template, a
delay parameter that is present, non-empty and parses as a number overrides
the default on the rendered page; an absent or empty parameter falls back
to the default and the page is rendered; a present, non-empty parameter
that does not parse makes `float` raise and no page is rendered. -/
theorem C3_effective_delay (cfg : Config) (w h : Nat) (html : String)
    (delay : Option String) :
    ((delay = none ∨ delay = some "") →
       get_page cfg w h (some html) delay
         = PageOutcome.page (render cfg w h html cfg.http_delay_secs)) ∧
    (∀ d v, delay = some d → d ≠ "" → pyFloat d = some v →
       get_page cfg w h (some html) delay
         = PageOutcome.page (render cfg w h html v)) ∧
    (∀ d, delay = some d → d ≠ "" → pyFloat d = none →
       get_page cfg w h (some html) delay = PageOutcome.raised) := by
  refine ⟨?_, ?_, ?_⟩
  · rintro (rfl | rfl) <;> simp [get_page]
  · rintro d v rfl hd hv
    simp [get_page, hd, hv]
  · rintro d rfl hd hv
    simp [get_page, hd, hv]

theorem C3_witness :
    get_page cfgW 100 50 (some "TPL") (some "2.5")
      = PageOutcome.page (render cfgW 100 50 "TPL" (mkRat 5 2)) :=
  (C3_effective_delay cfgW 100 50 "TPL" (some "2.5")).2.1 "2.5" (mkRat 5 2)
    rfl (by decide) (by decide)

/-- C6 counterexample: with the armed flag set but no werkzeug shutdown
hook in the request environ, the handler answers with the confirmation
message yet neither marks the state stopped nor invokes any hook, contrary
to the claim's unconditional description of the armed case. -/
theorem C6_counterexample :
    (shutdown false sArmed).response = "Shutting down..." ∧
      (shutdown false sArmed).state.stopped = false ∧
      (shutdown false sArmed).hook_called = false := by
  decide

/-- C6 (amended): the `/__shutdown__` handler responds "Not ready to stop"
and performs no shutdown when the armed flag is false; when armed and the
werkzeug shutdown hook is present it marks the state stopped, invokes the
hook and responds with the confirmation message; when armed but the hook is
absent it responds with the confirmation message without marking the state
stopped or invoking anything. -/
theorem C6_shutdown_handler (s : ImState) (hook : Bool) :
    (s.ready_to_stop = false →
       shutdown hook s = ⟨s, "Not ready to stop", false⟩) ∧
    (s.ready_to_stop = true → hook = true →
       shutdown hook s
         = ⟨{ s with stopped := true }, "Shutting down...", true⟩) ∧
    (s.ready_to_stop = true → hook = false →
       shutdown hook s = ⟨s, "Shutting down...", false⟩) := by
  refine ⟨fun h => ?_, fun h hh => ?_, fun h hh => ?_⟩
  · simp [shutdown, h]
  · subst hh; simp [shutdown, h]
  · subst hh; simp [shutdown, h]

theorem C6_witness :
    shutdown true sArmed
      = ⟨{ sArmed with stopped := true }, "Shutting down...", true⟩ :=
  (C6_shutdown_handler sArmed true).2.1 rfl rfl

/-- C7: when reading the template file fails (and the request's delay
parameter is absent, empty, or parseable, so that the `try` block is
reached), `get_page` logs the failure, sleeps one second, and returns the
failure result `None` to Flask instead of letting the exception escape; the
listener does not crash. -/
theorem C7_template_failure_contained (cfg : Config) (w h : Nat)
    (delay : Option String)
    (hdelay : delay = none ∨ delay = some ""
      ∨ ∃ d v, delay = some d ∧ pyFloat d = some v) :
    get_page cfg w h none delay = PageOutcome.failure true 1 ∧
      get_page cfg w h none delay ≠ PageOutcome.raised := by
  have hp : get_page cfg w h none delay = PageOutcome.failure true 1 := by
    rcases hdelay with rfl | rfl | ⟨d, v, rfl, hv⟩
    · simp [get_page]
    · simp [get_page]
    · by_cases hd : d = ""
      · subst hd; simp [get_page]
      · simp [get_page, hd, hv]
  exact ⟨hp, by rw [hp]; simp⟩

theorem C7_witness :
    get_page cfgW 100 50 none none = PageOutcome.failure true 1 :=
  (C7_template_failure_contained cfgW 100 50 none (Or.inl rfl)).1

/-- C8: the serve loop logs and sleeps one second on each abnormal failure
of the listener run call and then restarts it, unless the stopped flag is
observed at the loop check, in which case it exits; it never exits while
every check of the stopped flag reads false, and it exits at the first
check after the flag is set. -/
theorem C8_serve_loop (trace : List (Bool × RunOutcome)) :
    (∀ rest : List (Bool × RunOutcome),
       run_http ((false, RunOutcome.raised) :: rest)
         = (LoopEvent.runListener :: LoopEvent.logError ::
             LoopEvent.sleepSecs 1 :: LoopEvent.logShutdown ::
             (run_http rest).1, (run_http rest).2)) ∧
    (∀ (out : RunOutcome) (rest : List (Bool × RunOutcome)),
       run_http ((true, out) :: rest) = ([], true)) ∧
    ((∀ p ∈ trace, p.1 = false) → (run_http trace).2 = false) := by
  refine ⟨fun rest => rfl, fun out rest => rfl, ?_⟩
  induction trace with
  | nil => intro _; rfl
  | cons p rest ih =>
      intro h
      have hp : p.1 = false := h p (List.mem_cons_self _ _)
      obtain ⟨b, out⟩ := p
      simp only at hp
      subst hp
      simpa [run_http] using ih (fun q hq => h q (List.mem_cons_of_mem _ hq))

theorem C8_witness :
    (run_http [(false, RunOutcome.raised), (false, RunOutcome.raised)]).2
      = false :=
  (C8_serve_loop [(false, RunOutcome.raised), (false, RunOutcome.raised)]).2.2
    (by decide)

/-- C9 counterexample: with the listener unreachable, the `requests.post`
issued by `stop()` raises a connection error that propagates to the caller,
so a failure does escape the component. -/
theorem C9_counterexample :
    (stop PostOutcome.connError initState).2 = some "ConnectionError" :=
  rfl

/-- C9 (amended): `stop()` always sets the armed flag first; it returns
normally exactly when the confirming POST succeeds, and when the listener
is unreachable the connection error raised by `requests.post` propagates to
the caller (with the armed flag already set). -/
theorem C9_stop_behavior (s : ImState) (post : PostOutcome) :
    (stop post s).1 = { s with ready_to_stop := true } ∧
      ((stop post s).2 = none ↔ post = PostOutcome.ok) := by
  cases post <;> simp [stop]

theorem C9_witness :
    (stop PostOutcome.ok initState).1
      = { initState with ready_to_stop := true } :=
  (C9_stop_behavior initState PostOutcome.ok).1

lemma pySplit_ne_nil (sep : Char) (l : List Char) : pySplit sep l ≠ [] := by
  cases l with
  | nil => simp [pySplit]
  | cons c rest => simp only [pySplit]; split <;> simp

lemma pySplit_headD (sep : Char) (l : List Char) :
    (pySplit sep l).headD [] = l.takeWhile (· != sep) := by
  induction l with
  | nil => rfl
  | cons c rest ih =>
      by_cases h : c = sep
      · subst h; simp [pySplit, List.takeWhile_cons]
      · simp [pySplit, h, List.takeWhile_cons]
        rw [← List.headD_eq_head?]
        exact ih

lemma pySplit_no_sep (sep : Char) (l : List Char) (h : sep ∉ l) :
    pySplit sep l = [l] := by
  induction l with
  | nil => rfl
  | cons c rest ih =>
      have hc : ¬(c = sep) := by rintro rfl; exact h (List.mem_cons_self _ _)
      have hr : sep ∉ rest := fun hm => h (List.mem_cons_of_mem _ hm)
      simp [pySplit, hc, ih hr]

lemma pySplit_count_one (sep : Char) (l : List Char) (h : l.count sep = 1) :
    pySplit sep l
      = [l.takeWhile (· != sep), (l.dropWhile (· != sep)).tail] := by
  induction l with
  | nil => simp at h
  | cons c rest ih =>
      by_cases hc : c = sep
      · subst hc
        have h0 : rest.count c = 0 := by simpa [List.count_cons] using h
        have hr : c ∉ rest := by
          simpa using List.count_eq_zero.mp h0
        simp [pySplit, pySplit_no_sep c rest hr, List.takeWhile_cons,
          List.dropWhile_cons]
      · have hr : rest.count sep = 1 := by
          simpa [List.count_cons, hc] using h
        simp [pySplit, hc, ih hr, List.takeWhile_cons, List.dropWhile_cons]

lemma pySplit_length (sep : Char) (l : List Char) :
    (pySplit sep l).length = l.count sep + 1 := by
  induction l with
  | nil => simp [pySplit]
  | cons c rest ih =>
      by_cases hc : c = sep
      · subst hc; simp [pySplit, List.count_cons, ih]
      · have hpos : 0 < (pySplit sep rest).length :=
          List.length_pos.mpr (pySplit_ne_nil sep rest)
        simp only [pySplit, hc, if_false, List.length_cons, List.length_tail,
          List.count_cons]
        simp [hc]
        omega

/-- C10: in the constructor's host:port parsing the bind host is the text
before the first colon, the port is taken from the string (the text after
the colon) exactly when the string contains one colon, and otherwise (no
colon, or two or more colons) the default port is used. -/
theorem C10_host_port_parsing (s dflt : List Char) :
    (parse_host_port s dflt).1 = s.takeWhile (· != ':') ∧
    (s.count ':' = 1 →
       (parse_host_port s dflt).2 = (s.dropWhile (· != ':')).tail) ∧
    (s.count ':' ≠ 1 → (parse_host_port s dflt).2 = dflt) := by
  refine ⟨?_, fun h1 => ?_, fun h1 => ?_⟩
  · simpa [parse_host_port] using pySplit_headD ':' s
  · simp [parse_host_port, pySplit_count_one ':' s h1]
  · have hlen : (pySplit ':' s).length ≠ 2 := by
      rw [pySplit_length]; omega
    simp [parse_host_port, hlen]

theorem C10_witness :
    (parse_host_port "a:b:c".toList "80".toList).2 = "80".toList ∧
      (parse_host_port "localhost:8080".toList "80".toList).2
        = "8080".toList ∧
      (parse_host_port "a:b:c".toList "80".toList).1 = "a".toList :=
  ⟨(C10_host_port_parsing "a:b:c".toList "80".toList).2.2 (by decide),
    by
      rw [(C10_host_port_parsing "localhost:8080".toList "80".toList).2.1
        (by decide)]
      decide,
    by
      rw [(C10_host_port_parsing "a:b:c".toList "80".toList).1]
      decide⟩
